import Mathlib

/-!
# Verification of the Twitter/X media-variant normalization and ranking pipeline

Shallow embedding of the core logic of `src/platforms/twitter.js`:
the resolution parser (`parseResolution`), the quality classifier
(`getQualityFromResolution`), the URL resolution extractor
(`getResolutionFromUrl`), the status-id extractor
(`extractStatusIdFromUrl`), the variant ranker/deduplicator
(`enhanceMediaWithResolutions`), the download summary
(`generateDownloadInfo`), the Source A payload conversion
(`syndicationConvert`) and the merger (`handleScrapeRequestDirect`).

Modelling conventions, chosen so that every definition is executable by
the kernel (structural recursion only, no well-founded `String` helpers):

* JavaScript strings are Lean `String`s and are processed through their
  character lists (`String.toList`); `split('x')` is `splitOnChar 'x'`.
* `Number(s)` is modelled by `jsNumL` on the subset of strings this
  pipeline produces (digit strings, the empty string, and the
  non-numeric garbage that yields `NaN`): `""` evaluates to `0`, a
  non-empty all-digit string to its value, anything else to `NaN`,
  encoded as `none`.  Signs, decimals, whitespace and exponents never
  occur in the resolution labels this code builds (regex captures of
  `\d+`, templates of integer fields, and the sentinels).
* A JavaScript value that may be `undefined`/`null` is an `Option`;
  the `x || d` falsy-default idiom on strings is `jsOrString` (both
  `undefined` and `""` fall through to the default).
* `Array.prototype.sort` with the comparator
  `(a, b) => areaB - areaA` is a stable descending sort by pixel area;
  all stable sorts agree for a fixed preorder, so it is embedded as the
  stable insertion sort `sortByKeyDesc`.
* `[...new Set(xs)]` (first-seen-order deduplication) is `dedupFirst`.
* The network layer is outside the embedding: the three extractor
  outcomes are parameters of `handleScrapeRequestDirect`, and
  `new Date().toISOString()` (the current time used as a fallback
  timestamp in Source A) is the `nowIso` parameter of
  `syndicationConvert`.  `new Date(n * 1000).toISOString()` for a
  numeric timestamp is `isoOfEpochSeconds` (proleptic Gregorian
  calendar, years printed without the expanded six-digit form that
  JavaScript uses outside 0000-9999 - no claim depends on it).
  The `date_time` and `suggested_filenames` fields of the download
  summary, which re-parse an arbitrary `created_at` string through
  `new Date(string)`, are omitted from `DownloadInfo`; no claim
  mentions them.
-/

/-- `s.split('x')` on character lists: splits at every occurrence of `c`,
keeping empty groups, like the JavaScript `String.prototype.split`. -/
def splitOnChar (c : Char) : List Char → List (List Char)
  | [] => [[]]
  | a :: rest =>
    match splitOnChar c rest with
    | [] => [[]]
    | g :: gs => if a = c then [] :: g :: gs else (a :: g) :: gs

/-- Numeric value of an all-digit character list (most significant first). -/
def natOfDigits (l : List Char) : Nat :=
  l.foldl (fun n c => n * 10 + (c.toNat - 48)) 0

/-- `Number(s)` on the string subset used by the pipeline: `""` is `0`,
a non-empty digit string is its value, everything else is `NaN` (`none`). -/
def jsNumL (l : List Char) : Option Nat :=
  if l = [] then some 0
  else if l.all Char.isDigit then some (natOfDigits l) else none

/-- The JavaScript `a || d` falsy-default idiom for an optional string:
`undefined`/`null` and `""` fall through to the default. -/
def jsOrString (a : Option String) (d : String) : String :=
  match a with
  | some s => if s = "" then d else s
  | none => d

/-- `parseResolution` (twitter.js lines 589-598): `"WxH"` to a
width/height pair, `(0, 0)` for the absent/empty string and the
sentinels, and a componentwise `|| 0` default otherwise.
The absent (`undefined`) argument is folded into the `""` case: both are
falsy in the source's `!resolution` test. -/
def parseResolution (resolution : String) : Nat × Nat :=
  if resolution = "" ∨ resolution = "unknown" ∨ resolution = "undefinedxundefined" then
    (0, 0)
  else
    let parts := (splitOnChar 'x' resolution.toList).map jsNumL
    ((parts[0]?.join).getD 0, (parts[1]?.join).getD 0)

/-- The classifier's own parse (twitter.js line 561):
`const [width, height] = resolution.split('x').map(Number)`.
A missing component destructures to `undefined`, and `isNaN(undefined)`
is true, so missing and `NaN` are both `none`. -/
def classifierParse (resolution : String) : Option Nat × Option Nat :=
  let parts := (splitOnChar 'x' resolution.toList).map jsNumL
  (parts[0]?.join, parts[1]?.join)

/-- `getQualityFromResolution` (twitter.js lines 558-581): sentinels to
`"unknown"`, `NaN` to `"unknown"`, seven exact canonical matches, then
descending width-or-height thresholds, else `"unknown"`. -/
def getQualityFromResolution (resolution : String) : String :=
  if resolution = "" ∨ resolution = "unknown" ∨ resolution = "undefinedxundefined" then
    "unknown"
  else
    match classifierParse resolution with
    | (some width, some height) =>
      if width = 480 ∧ height = 270 then "480p"
      else if width = 640 ∧ height = 360 then "360p"
      else if width = 854 ∧ height = 480 then "480p"
      else if width = 1280 ∧ height = 720 then "720p"
      else if width = 1920 ∧ height = 1080 then "1080p"
      else if width = 2560 ∧ height = 1440 then "1440p"
      else if width = 3840 ∧ height = 2160 then "4K"
      else if 3840 ≤ width ∨ 2160 ≤ height then "4K"
      else if 2560 ≤ width ∨ 1440 ≤ height then "1440p"
      else if 1920 ≤ width ∨ 1080 ≤ height then "1080p"
      else if 1280 ≤ width ∨ 720 ≤ height then "720p"
      else if 854 ≤ width ∨ 480 ≤ height then "480p"
      else if 640 ≤ width ∨ 360 ≤ height then "360p"
      else "unknown"
    | _ => "unknown"

/-- The quality policy of the specification, stated directly on numeric
width/height (spec 4.2): exact canonical table, then thresholds, else
`"unknown"`.  Spec-side counterpart used to state claim C4. -/
def qualityFromDims (width height : Nat) : String :=
  if width = 480 ∧ height = 270 then "480p"
  else if width = 640 ∧ height = 360 then "360p"
  else if width = 854 ∧ height = 480 then "480p"
  else if width = 1280 ∧ height = 720 then "720p"
  else if width = 1920 ∧ height = 1080 then "1080p"
  else if width = 2560 ∧ height = 1440 then "1440p"
  else if width = 3840 ∧ height = 2160 then "4K"
  else if 3840 ≤ width ∨ 2160 ≤ height then "4K"
  else if 2560 ≤ width ∨ 1440 ≤ height then "1440p"
  else if 1920 ≤ width ∨ 1080 ≤ height then "1080p"
  else if 1280 ≤ width ∨ 720 ≤ height then "720p"
  else if 854 ≤ width ∨ 480 ≤ height then "480p"
  else if 640 ≤ width ∨ 360 ≤ height then "360p"
  else "unknown"

/-- Spec-side component extraction used to state the amended claim C6:
the `i`-th `'x'`-separated component of the string, through `Number`,
defaulting to `0` when missing or `NaN`. -/
def componentOr0 (s : String) (i : Nat) : Nat :=
  (((splitOnChar 'x' s.toList)[i]?).bind jsNumL).getD 0

/-- Spec-side predicate used to state claim C6: the string splits on
`'x'` into exactly two components, both numeric. -/
def twoNumericComponents (s : String) : Prop :=
  (splitOnChar 'x' s.toList).length = 2 ∧
    ∀ p ∈ splitOnChar 'x' s.toList, jsNumL p ≠ none

instance (s : String) : Decidable (twoNumericComponents s) := by
  unfold twoNumericComponents; infer_instance

/-- One regex-match attempt of `/\/(\d+)x(\d+)\//` anchored at the head
of the character list.  Greedy `\d+` never backtracks productively here:
shortening a maximal digit run exposes another digit where `x` or `/` is
required, so the maximal run is the only candidate. -/
def matchResAt : List Char → Option (List Char × List Char)
  | '/' :: rest =>
    let d1 := rest.takeWhile Char.isDigit
    let r1 := rest.dropWhile Char.isDigit
    if d1 = [] then none
    else
      match r1 with
      | 'x' :: r2 =>
        let d2 := r2.takeWhile Char.isDigit
        let r3 := r2.dropWhile Char.isDigit
        if d2 = [] then none
        else
          match r3 with
          | '/' :: _ => some (d1, d2)
          | _ => none
      | _ => none
  | _ => none

/-- Leftmost match of `/\/(\d+)x(\d+)\//`, trying every start position
from the left like the regex engine. -/
def findResolution : List Char → Option (List Char × List Char)
  | [] => none
  | c :: cs =>
    match matchResAt (c :: cs) with
    | some p => some p
    | none => findResolution cs

/-- `getResolutionFromUrl` (twitter.js lines 583-587): first
`/(\d+)x(\d+)/` path segment of the URL as `"WxH"`, `null` when absent
or when the URL itself is falsy. -/
def getResolutionFromUrl (url : Option String) : Option String :=
  match url with
  | none => none
  | some s =>
    if s = "" then none
    else (findResolution s.toList).map (fun p => String.mk p.1 ++ "x" ++ String.mk p.2)

/-- Scanner for `/\d{10,}/` (twitter.js lines 600-603): accumulates the
current digit run (reversed) and returns the first maximal run of at
least ten digits. -/
def digitRunScan (cur : List Char) : List Char → Option (List Char)
  | [] => if 10 ≤ cur.length then some cur.reverse else none
  | c :: cs =>
    if c.isDigit then digitRunScan (c :: cur) cs
    else if 10 ≤ cur.length then some cur.reverse else digitRunScan [] cs

/-- `extractStatusIdFromUrl` (twitter.js lines 600-603): leftmost run of
ten or more consecutive digits, or `null`. -/
def extractStatusIdFromUrl (urlString : String) : Option String :=
  (digitRunScan [] urlString.toList).map String.mk

/-- Stable insertion into a descending-by-key list: the new element goes
after every element with a strictly larger key and before everything
else, so earlier list elements win ties. -/
def insertByKeyDesc {α : Type} (key : α → Nat) (x : α) : List α → List α
  | [] => [x]
  | y :: ys => if key x < key y then y :: insertByKeyDesc key x ys else x :: y :: ys

/-- Stable descending sort by a `Nat` key.  This is the unique stable
sort for the preorder induced by `key`, hence the embedding of the
source's `Array.prototype.sort((a, b) => key(b) - key(a))`. -/
def sortByKeyDesc {α : Type} (key : α → Nat) : List α → List α
  | [] => []
  | x :: xs => insertByKeyDesc key x (sortByKeyDesc key xs)

/-- First-seen-order deduplication with an accumulator of already-seen
elements; `dedupFirst` below is `[...new Set(xs)]`. -/
def dedupFirstAux {α : Type} [DecidableEq α] (seen : List α) : List α → List α
  | [] => []
  | x :: xs =>
    if x ∈ seen then dedupFirstAux seen xs
    else x :: dedupFirstAux (x :: seen) xs

/-- `[...new Set(xs)]`: keep the first occurrence of each element. -/
def dedupFirst {α : Type} [DecidableEq α] (l : List α) : List α :=
  dedupFirstAux [] l

/-- One downloadable rendition of a media item (the variant objects the
extractors build).  `url` is optional because a Source A animated-gif
variant may be built from a payload entry without `src`, and the
synthesized variant of the ranker copies a possibly-missing item URL. -/
structure Variant where
  url : Option String := none
  quality : String := ""
  resolution : String := ""
  bitrate : Option Nat := none
  content_type : Option String := none
deriving Repr, DecidableEq

/-- One media item as the extractors and the ranker shape it.  Fields
that the source writes only on some paths are `Option`s, `none` playing
the role of an absent JavaScript property. -/
structure MediaItem where
  type : String
  url : Option String := none
  download_url : Option String := none
  thumbnail_url : Option String := none
  duration : Option Nat := none
  width : Option Nat := none
  height : Option Nat := none
  size : Option String := none
  variants : List Variant := []
  best_quality : Option String := none
  available_qualities : Option (List String) := none
  available_resolutions : Option (List String) := none
deriving Repr, DecidableEq

attribute [ext] Variant MediaItem

/-- Pixel area of a variant through `parseResolution`; the ranking key
of the comparator at twitter.js lines 537-543. -/
def variantArea (v : Variant) : Nat :=
  (parseResolution v.resolution).1 * (parseResolution v.resolution).2

/-- The resolution used for the synthesized variant (twitter.js line
529): `getResolutionFromUrl(item.url) || item.size || 'unknown'`. -/
def synthResolution (item : MediaItem) : String :=
  jsOrString (getResolutionFromUrl item.url) (jsOrString item.size "unknown")

/-- The variant list the ranker sorts (twitter.js lines 528-535): the
item's own variants, or one synthesized variant when they are empty. -/
def rawVariants (item : MediaItem) : List Variant :=
  if item.variants = [] then
    [{ url := item.url,
       quality := getQualityFromResolution (synthResolution item),
       resolution := synthResolution item }]
  else item.variants

/-- The per-item body of `enhanceMediaWithResolutions` (twitter.js lines
526-554): photos and any non-video/gif kind pass through untouched;
video/gif variants are (synthesized if empty and) stably sorted by
descending pixel area, and the primary URL, download URL, best quality
and deduplicated available quality/resolution lists are derived from the
sorted list. -/
def enhanceItem (item : MediaItem) : MediaItem :=
  if item.type = "video" ∨ item.type = "gif" then
    match sortByKeyDesc variantArea (rawVariants item) with
    | [] => { item with variants := [] }
    | v :: vs =>
      { item with
        variants := v :: vs,
        url := v.url,
        download_url := v.url,
        best_quality := some v.quality,
        available_qualities :=
          some (dedupFirst (((v :: vs).map (fun w => w.quality)).filter
            (fun q => q != "" && q != "unknown"))),
        available_resolutions :=
          some (dedupFirst (((v :: vs).map (fun w => w.resolution)).filter
            (fun r => r != "" && r != "unknown"))) }
  else item

/-- `enhanceMediaWithResolutions` (twitter.js lines 525-556), the
Variant Ranker/Deduplicator run over a media list. -/
def enhanceMediaWithResolutions (mediaItems : List MediaItem) : List MediaItem :=
  mediaItems.map enhanceItem

/-- Left-pad a decimal rendering with zeros to the given width. -/
def padZ (w : Nat) (n : Nat) : String :=
  let s := toString n
  if w ≤ s.length then s else String.mk (List.replicate (w - s.length) '0') ++ s

/-- Proleptic-Gregorian civil date from a day count relative to
1970-01-01 (Howard Hinnant's `civil_from_days` algorithm). -/
def civilFromDays (z0 : Int) : Int × Nat × Nat :=
  let z : Int := z0 + 719468
  let era : Int := z.fdiv 146097
  let doe : Nat := (z - era * 146097).toNat
  let yoe : Nat := (doe - doe / 1460 + doe / 36524 - doe / 146096) / 365
  let y : Int := (yoe : Int) + era * 400
  let doy : Nat := doe - (365 * yoe + yoe / 4 - yoe / 100)
  let mp : Nat := (5 * doy + 2) / 153
  let d : Nat := doy - (153 * mp + 2) / 5 + 1
  let m : Nat := if mp < 10 then mp + 3 else mp - 9
  (if m ≤ 2 then y + 1 else y, m, d)

/-- `new Date(n * 1000).toISOString()` for an integer number of epoch
seconds (milliseconds are therefore always `.000`).  Years outside
0000-9999, where JavaScript switches to the expanded six-digit form, are
rendered plainly; no pipeline value reaches them. -/
def isoOfEpochSeconds (n : Int) : String :=
  let days : Int := n.fdiv 86400
  let secOfDay : Nat := (n - days * 86400).toNat
  let ymd := civilFromDays days
  let y : Int := ymd.1
  let yearStr : String := if 0 ≤ y then padZ 4 y.toNat else "-" ++ padZ 4 (-y).toNat
  yearStr ++ "-" ++ padZ 2 ymd.2.1 ++ "-" ++ padZ 2 ymd.2.2 ++ "T" ++
    padZ 2 (secOfDay / 3600) ++ ":" ++ padZ 2 (secOfDay % 3600 / 60) ++ ":" ++
    padZ 2 (secOfDay % 60) ++ ".000Z"

/-- A `created_at` value: upstream payloads carry either a numeric Unix
timestamp or a date string. -/
inductive CreatedAt where
  | num (n : Int)
  | str (s : String)
deriving Repr, DecidableEq

/-- The handler's timestamp fix (twitter.js lines 167-169):
`if (typeof result.created_at === 'number') result.created_at = new
Date(result.created_at * 1000).toISOString()`. -/
def fixCreatedAt : CreatedAt → CreatedAt
  | .num n => .str (isoOfEpochSeconds n)
  | .str s => .str s

/-- Author block of a candidate result. -/
structure UserInfo where
  name : String
  screen_name : String
  profile_image_url : String
deriving Repr, DecidableEq

/-- The common intermediate result shape every extractor produces
(twitter.js lines 221-231, 358-368, 431-441). -/
structure CandidateResult where
  method : String
  user : UserInfo
  text : String
  created_at : CreatedAt
  media : List MediaItem
deriving Repr, DecidableEq

/-- Author block of a Source A (syndication) payload; every field may be
absent upstream. -/
structure SyndUser where
  name : Option String := none
  screen_name : Option String := none
  profile_image_url_https : Option String := none
deriving Repr, DecidableEq

/-- One photo entry of a Source A payload. -/
structure SyndPhoto where
  url : String
  width : Option Nat := none
  height : Option Nat := none
deriving Repr, DecidableEq

/-- One raw upstream video/gif variant of a Source A payload. -/
structure SyndVariant where
  type : Option String := none
  src : Option String := none
  bitrate : Option Nat := none
  content_type : Option String := none
deriving Repr, DecidableEq

/-- The video (or animated_gif) block of a Source A payload. -/
structure SyndVideo where
  thumbnail_url : Option String := none
  duration : Option Nat := none
  width : Option Nat := none
  height : Option Nat := none
  variants : Option (List SyndVariant) := none
deriving Repr, DecidableEq

/-- A Source A (syndication) payload, restricted to the fields the
conversion reads. -/
structure SyndPayload where
  photos : Option (List SyndPhoto) := none
  video : Option SyndVideo := none
  animated_gif : Option SyndVideo := none
  user : Option SyndUser := none
  text : Option String := none
  created_at : Option String := none
deriving Repr, DecidableEq

/-- JavaScript template rendering of a possibly-undefined number:
`` `${x}` `` is the decimal string or `"undefined"`. -/
def showOptNat (o : Option Nat) : String :=
  match o with
  | some n => toString n
  | none => "undefined"

/-- A truthy optional string (present and non-empty). -/
def truthyStr (o : Option String) : Bool :=
  match o with
  | some s => s != ""
  | none => false

/-- Source A photo conversion (twitter.js lines 234-250): one
single-variant `original`-tier item per photo; note the download URL and
the variant URL carry the `?format=jpg&name=orig` suffix while the
primary URL does not. -/
def syndPhotoItem (photo : SyndPhoto) : MediaItem :=
  { type := "photo",
    url := some photo.url,
    download_url := some (photo.url ++ "?format=jpg&name=orig"),
    width := photo.width,
    height := photo.height,
    size := some (showOptNat photo.width ++ "x" ++ showOptNat photo.height),
    variants := [{ url := some (photo.url ++ "?format=jpg&name=orig"),
                   quality := "original",
                   resolution := showOptNat photo.width ++ "x" ++ showOptNat photo.height }] }

/-- Source A video/gif raw-variant conversion (twitter.js lines 267-273
and 307-313): resolution from the URL path, falling back to the block's
`WxH` template; quality through the classifier. -/
def syndVariantItem (blockW blockH : Option Nat) (v : SyndVariant) : Variant :=
  let res := jsOrString (getResolutionFromUrl v.src)
    (showOptNat blockW ++ "x" ++ showOptNat blockH)
  { url := v.src,
    quality := getQualityFromResolution res,
    bitrate := v.bitrate,
    content_type := some (jsOrString v.content_type "video/mp4"),
    resolution := res }

/-- Source A video conversion (twitter.js lines 253-291): keep only
`video/mp4` variants with a truthy `src`, sort by descending pixel area,
and derive URL/download URL/best quality from the first variant when any
survived. -/
def syndVideoItem (v : SyndVideo) : MediaItem :=
  let base : MediaItem :=
    { type := "video",
      thumbnail_url := v.thumbnail_url,
      duration := v.duration,
      width := v.width,
      height := v.height,
      size := some (showOptNat v.width ++ "x" ++ showOptNat v.height),
      variants := [] }
  let mp4 :=
    match v.variants with
    | some vs =>
      sortByKeyDesc variantArea
        ((vs.filter (fun (sv : SyndVariant) => sv.type == some "video/mp4" && truthyStr sv.src)).map
          (syndVariantItem v.width v.height))
    | none => []
  match mp4 with
  | [] => base
  | m :: ms =>
    { base with
      variants := m :: ms, url := m.url, download_url := m.url,
      best_quality := some m.quality }

/-- Source A animated-gif conversion (twitter.js lines 294-330): like
the video block but without the `src` truthiness filter and without
setting `best_quality`. -/
def syndGifItem (g : SyndVideo) : MediaItem :=
  let base : MediaItem :=
    { type := "gif",
      thumbnail_url := g.thumbnail_url,
      width := g.width,
      height := g.height,
      size := some (showOptNat g.width ++ "x" ++ showOptNat g.height),
      variants := [] }
  let gifVariants :=
    match g.variants with
    | some vs =>
      sortByKeyDesc variantArea
        ((vs.filter (fun (sv : SyndVariant) => sv.type == some "video/mp4")).map
          (syndVariantItem g.width g.height))
    | none => []
  match gifVariants with
  | [] => base
  | m :: ms => { base with variants := m :: ms, url := m.url, download_url := m.url }

/-- The pure payload-to-result core of `fetchViaSyndicationAPI`
(twitter.js lines 220-332); the endpoint loop and HTTP layer around it
are the network boundary.  `nowIso` stands for
`new Date().toISOString()`. -/
def syndicationConvert (nowIso : String) (data : SyndPayload) : Option CandidateResult :=
  if data.photos.isSome ∨ data.video.isSome ∨ data.animated_gif.isSome then
    some
      { method := "api_a",
        user :=
          { name := jsOrString (data.user.bind (fun u => u.name)) "Unknown",
            screen_name := jsOrString (data.user.bind (fun u => u.screen_name)) "unknown",
            profile_image_url :=
              jsOrString (data.user.bind (fun u => u.profile_image_url_https)) "" },
        text := jsOrString data.text "",
        created_at := .str (jsOrString data.created_at nowIso),
        media :=
          (match data.photos with
           | some ps => ps.map syndPhotoItem
           | none => []) ++
          (match data.video with
           | some v => [syndVideoItem v]
           | none => []) ++
          (match data.animated_gif with
           | some g => [syndGifItem g]
           | none => []) }
  else none

/-- Filename-hostile characters replaced by `_` in `cleanName`
(twitter.js lines 613-615). -/
def isFilenameSpecial (c : Char) : Bool :=
  c = '\\' || c = '/' || c = ':' || c = '*' || c = '?' || c = '"' || c = '<' || c = '>' || c = '|'

/-- `cleanName` (twitter.js lines 613-615): default, sanitize, truncate
to 50 characters. -/
def cleanName (s : String) : String :=
  let t := if s = "" then "unknown" else s
  String.mk ((t.toList.map (fun c => if isFilenameSpecial c then '_' else c)).take 50)

/-- The fixed tier-rank table of `generateDownloadInfo` (twitter.js
lines 638-641); unknown tiers rank `0`. -/
def qualityRank (q : String) : Nat :=
  if q = "4K" then 6
  else if q = "1440p" then 5
  else if q = "1080p" then 4
  else if q = "720p" then 3
  else if q = "480p" then 2
  else if q = "360p" then 1
  else 0

/-- Pixel area of a resolution label, the sort key for
`available_resolutions` in the download summary. -/
def resArea (r : String) : Nat :=
  (parseResolution r).1 * (parseResolution r).2

/-- The download summary (twitter.js lines 605-666), restricted to the
fields the embedding covers; `date_time` and `suggested_filenames`,
which go through `new Date(string)` parsing, are outside the model. -/
structure DownloadInfo where
  id : String
  user_name : String
  user_id : String
  media_count : Nat
  total_files : Nat
  total_variants : Nat
  highest_quality : String
  available_qualities : List String
  available_resolutions : List String
deriving Repr, DecidableEq

/-- `generateDownloadInfo` (twitter.js lines 605-666): aggregate every
variant of every item, deduplicate the truthy non-`"unknown"` qualities
and resolutions in first-seen order, then sort them by the tier-rank
table and by pixel area respectively. -/
def generateDownloadInfo (user : UserInfo) (media : List MediaItem) (tweetId : String) :
    DownloadInfo :=
  let userScreenName := if user.screen_name = "" then "unknown" else user.screen_name
  let userName := if user.name = "" then "Unknown" else user.name
  let allVariants := (media.map (fun i => i.variants)).flatten
  let quals := dedupFirst ((allVariants.map (fun v => v.quality)).filter
    (fun q => q != "" && q != "unknown"))
  let ress := dedupFirst ((allVariants.map (fun v => v.resolution)).filter
    (fun r => r != "" && r != "unknown"))
  let sortedQualities := sortByKeyDesc qualityRank quals
  let sortedResolutions := sortByKeyDesc resArea ress
  { id := tweetId,
    user_name := cleanName userName,
    user_id := userScreenName,
    media_count := media.length,
    total_files := media.length,
    total_variants := allVariants.length,
    highest_quality :=
      match sortedQualities with
      | [] => "unknown"
      | q :: _ => if q = "" then "unknown" else q,
    available_qualities := sortedQualities,
    available_resolutions := sortedResolutions }

/-- The JSON body plus HTTP status of a `jsonResponse` of the handler;
absent JSON keys are `none`. -/
structure ScrapeResponse where
  status : Nat
  success : Bool
  error : Option String := none
  url : Option String := none
  id : Option String := none
  method : Option String := none
  user : Option UserInfo := none
  text : Option String := none
  created_at : Option CreatedAt := none
  media : Option (List MediaItem) := none
  media_count : Option Nat := none
  download_info : Option DownloadInfo := none
deriving Repr, DecidableEq

/-- The 400 response of twitter.js lines 129-133. -/
def invalidUrlResponse : ScrapeResponse :=
  { status := 400, success := false, error := some "Invalid URL" }

/-- The 404 response of twitter.js lines 151-156. -/
def unavailableResponse (statusId : String) : ScrapeResponse :=
  { status := 404, success := false, error := some "Content not available",
    id := some statusId }

/-- The 200 response of twitter.js lines 171-182, after the media
substitution and the timestamp fix. -/
def okResponse (tweetUrl statusId : String) (r : CandidateResult)
    (media : List MediaItem) (method : String) : ScrapeResponse :=
  { status := 200, success := true,
    url := some tweetUrl,
    id := some statusId,
    method := some (if method = "" then "standard" else method),
    user := some r.user,
    text := some r.text,
    created_at := some (fixCreatedAt r.created_at),
    media := some media,
    media_count := some media.length,
    download_info := some (generateDownloadInfo r.user media statusId) }

/-- JavaScript `a || b` on optional results (`null` is falsy). -/
def jsOrOpt (a b : Option CandidateResult) : Option CandidateResult :=
  match a with
  | some r => some r
  | none => b

/-- Base-result selection of the merger (twitter.js lines 143-148):
`let result = syndicationResult || fxtwitterResult`, replaced by the
HTML-scraping result when absent or empty of media. -/
def mergeBase (syndicationResult fxtwitterResult htmlResult : Option CandidateResult) :
    Option CandidateResult :=
  match jsOrOpt syndicationResult fxtwitterResult with
  | none => htmlResult
  | some r => if r.media = [] then htmlResult else some r

/-- `handleScrapeRequestDirect` (twitter.js lines 124-191) with the
three network outcomes as parameters: Source A and Source B results are
both awaited, the HTML result stands for the lazy `fetchViaHTMLScraping`
fallback that the source only consults when `syndicationResult ||
fxtwitterResult` is absent or has no media.  The `catch` branch (HTTP
500) is unreachable in the pure model and is not represented. -/
def handleScrapeRequestDirect (tweetUrl : String)
    (syndicationResult fxtwitterResult htmlResult : Option CandidateResult) :
    ScrapeResponse :=
  match extractStatusIdFromUrl tweetUrl with
  | none => invalidUrlResponse
  | some statusId =>
    match mergeBase syndicationResult fxtwitterResult htmlResult with
    | none => unavailableResponse statusId
    | some r =>
      if r.media = [] then unavailableResponse statusId
      else
        match syndicationResult with
        | some s =>
          if s.media = [] then
            okResponse tweetUrl statusId r (enhanceMediaWithResolutions r.media) r.method
          else
            okResponse tweetUrl statusId r (enhanceMediaWithResolutions s.media) "api_a"
        | none =>
          okResponse tweetUrl statusId r (enhanceMediaWithResolutions r.media) r.method

/-- The record shape `enhanceItem` produces for a ranked video/gif item
(the assignments of twitter.js lines 545-551 applied at once); proof-layer
abbreviation for the right-hand side of `enhanceItem_eq`. -/
def rankedItem (a : MediaItem) (v : Variant) (vs : List Variant) : MediaItem :=
  { a with
    variants := v :: vs,
    url := v.url,
    download_url := v.url,
    best_quality := some v.quality,
    available_qualities :=
      some (dedupFirst (((v :: vs).map (fun w => w.quality)).filter
        (fun q => q != "" && q != "unknown"))),
    available_resolutions :=
      some (dedupFirst (((v :: vs).map (fun w => w.resolution)).filter
        (fun r => r != "" && r != "unknown"))) }

/-- Concrete reference string used by the witnesses. -/
def sampleUrl : String := "https://x.com/i/status/1234567890123"

/-- Concrete Source A outcome: one video item with two raw variants. -/
def sampleVideoResult : CandidateResult :=
  { method := "api_a",
    user := { name := "n", screen_name := "sn", profile_image_url := "" },
    text := "t",
    created_at := .str "2024-01-01T00:00:00.000Z",
    media :=
      [{ type := "video",
         variants :=
           [{ url := some "u1", quality := "360p", resolution := "640x360" },
            { url := some "u2", quality := "720p", resolution := "1280x720" }] }] }

/-- Concrete Source B outcome: one photo item. -/
def sampleBResult : CandidateResult :=
  { method := "api_b",
    user := { name := "b", screen_name := "b", profile_image_url := "" },
    text := "b",
    created_at := .str "2024-01-02T00:00:00.000Z",
    media :=
      [{ type := "photo", url := some "p", download_url := some "p",
         variants := [{ url := some "p", quality := "original", resolution := "800x600" }] }] }

/-- Concrete photo item in the Source A shape. -/
def samplePhotoItem : MediaItem :=
  syndPhotoItem { url := "https://pbs.twimg.com/media/a.jpg", width := some 800, height := some 600 }

/-- Concrete handler response of the sample video flow. -/
def sampleResponse : ScrapeResponse :=
  handleScrapeRequestDirect sampleUrl (some sampleVideoResult) none none

/-- First media item of the sample video response. -/
def sampleItem : MediaItem := (sampleResponse.media.getD []).headD { type := "" }

/-- First item of the ranked sample media list. -/
def sampleRankedItem : MediaItem :=
  (enhanceMediaWithResolutions sampleVideoResult.media).headD { type := "" }

/-- Concrete Source A payload delivering a single photo; exhibits the
download-suffix mismatch of claim C5. -/
def c5PhotoPayload : SyndPayload :=
  { photos := some [{ url := "https://pbs.twimg.com/media/a.jpg",
                      width := some 800, height := some 600 }] }

section SortLemmas

variable {α : Type} (key : α → Nat)

theorem insertByKeyDesc_perm (x : α) (l : List α) :
    (insertByKeyDesc key x l).Perm (x :: l) := by
  induction l with
  | nil => simp [insertByKeyDesc]
  | cons y ys ih =>
    rw [insertByKeyDesc]
    split
    · exact (ih.cons y).trans (List.Perm.swap x y ys)
    · exact List.Perm.refl _

theorem sortByKeyDesc_perm (l : List α) : (sortByKeyDesc key l).Perm l := by
  induction l with
  | nil => simp [sortByKeyDesc]
  | cons x xs ih =>
    rw [sortByKeyDesc]
    exact (insertByKeyDesc_perm key x (sortByKeyDesc key xs)).trans (ih.cons x)

theorem insertByKeyDesc_pairwise (x : α) (l : List α)
    (h : l.Pairwise (fun a b => key b ≤ key a)) :
    (insertByKeyDesc key x l).Pairwise (fun a b => key b ≤ key a) := by
  induction l with
  | nil => simp [insertByKeyDesc]
  | cons y ys ih =>
    rw [insertByKeyDesc]
    rcases h with - | ⟨hy, hys⟩
    split
    · refine List.Pairwise.cons ?_ (ih hys)
      intro z hz
      have hz' := List.mem_cons.mp ((insertByKeyDesc_perm key x ys).mem_iff.mp hz)
      rcases hz' with rfl | hz'
      · omega
      · exact hy z hz'
    · refine List.Pairwise.cons ?_ (List.Pairwise.cons hy hys)
      intro z hz
      rcases List.mem_cons.mp hz with rfl | hz
      · omega
      · have := hy z hz
        omega

theorem sortByKeyDesc_pairwise (l : List α) :
    (sortByKeyDesc key l).Pairwise (fun a b => key b ≤ key a) := by
  induction l with
  | nil => simp [sortByKeyDesc]
  | cons x xs ih => exact insertByKeyDesc_pairwise key x _ ih

theorem sortByKeyDesc_eq_of_sorted (l : List α)
    (h : l.Pairwise (fun a b => key b ≤ key a)) : sortByKeyDesc key l = l := by
  induction l with
  | nil => rfl
  | cons x xs ih =>
    rcases h with - | ⟨hx, hxs⟩
    rw [sortByKeyDesc, ih hxs]
    cases xs with
    | nil => rfl
    | cons y ys =>
      rw [insertByKeyDesc]
      have : ¬ key x < key y := by
        have := hx y (by simp)
        omega
      simp [this]

theorem sortByKeyDesc_idem (l : List α) :
    sortByKeyDesc key (sortByKeyDesc key l) = sortByKeyDesc key l :=
  sortByKeyDesc_eq_of_sorted key _ (sortByKeyDesc_pairwise key l)

theorem sortByKeyDesc_eq_nil_iff (l : List α) : sortByKeyDesc key l = [] ↔ l = [] := by
  constructor
  · intro h
    have hp := sortByKeyDesc_perm key l
    rw [h] at hp
    exact hp.symm.eq_nil
  · intro h
    subst h
    rfl

theorem insertByKeyDesc_filter_key (x : α) (l : List α) (k : Nat) :
    (insertByKeyDesc key x l).filter (fun a => key a == k) =
      if key x = k then x :: l.filter (fun a => key a == k)
      else l.filter (fun a => key a == k) := by
  induction l with
  | nil =>
    rw [insertByKeyDesc]
    by_cases h : key x = k <;> simp [List.filter_cons, h]
  | cons y ys ih =>
    rw [insertByKeyDesc]
    by_cases hxy : key x < key y
    · rw [if_pos hxy]
      by_cases hy : key y = k
      · have hx : ¬ key x = k := by omega
        simp [List.filter_cons, ih, hy, hx]
      · by_cases hx : key x = k <;> simp [List.filter_cons, ih, hy, hx]
    · rw [if_neg hxy]
      by_cases hx : key x = k <;> simp [List.filter_cons, hx]

theorem sortByKeyDesc_filter_stable (l : List α) (k : Nat) :
    (sortByKeyDesc key l).filter (fun a => key a == k) =
      l.filter (fun a => key a == k) := by
  induction l with
  | nil => rfl
  | cons x xs ih =>
    rw [sortByKeyDesc, insertByKeyDesc_filter_key, List.filter_cons]
    by_cases hx : key x = k <;> simp [hx, ih]

end SortLemmas

section DedupLemmas

variable {α : Type} [DecidableEq α]

theorem mem_dedupFirstAux {x : α} :
    ∀ (l seen : List α), x ∈ dedupFirstAux seen l → x ∈ l ∧ x ∉ seen := by
  intro l
  induction l with
  | nil => intro seen h; simp [dedupFirstAux] at h
  | cons y ys ih =>
    intro seen h
    rw [dedupFirstAux] at h
    by_cases hy : y ∈ seen
    · rw [if_pos hy] at h
      have := ih seen h
      exact ⟨List.mem_cons_of_mem _ this.1, this.2⟩
    · rw [if_neg hy] at h
      rcases List.mem_cons.mp h with rfl | h
      · exact ⟨List.mem_cons_self _ _, hy⟩
      · have := ih (y :: seen) h
        refine ⟨List.mem_cons_of_mem _ this.1, fun hx => this.2 (List.mem_cons_of_mem _ hx)⟩

theorem dedupFirstAux_nodup : ∀ (l seen : List α), (dedupFirstAux seen l).Nodup := by
  intro l
  induction l with
  | nil => intro seen; simp [dedupFirstAux]
  | cons y ys ih =>
    intro seen
    rw [dedupFirstAux]
    by_cases hy : y ∈ seen
    · rw [if_pos hy]; exact ih seen
    · rw [if_neg hy]
      refine List.Nodup.cons ?_ (ih (y :: seen))
      intro hmem
      exact (mem_dedupFirstAux ys (y :: seen) hmem).2 (List.mem_cons_self _ _)

theorem dedupFirst_nodup (l : List α) : (dedupFirst l).Nodup :=
  dedupFirstAux_nodup l []

theorem mem_of_mem_dedupFirst {x : α} {l : List α} (h : x ∈ dedupFirst l) : x ∈ l :=
  (mem_dedupFirstAux l [] h).1

end DedupLemmas

theorem rawVariants_ne_nil (item : MediaItem) : rawVariants item ≠ [] := by
  rw [rawVariants]
  split
  · simp
  · assumption

/-- Frame helper: the ranker leaves any item that is neither a video nor
a gif untouched. -/
theorem enhanceItem_frame (item : MediaItem)
    (h : ¬ (item.type = "video" ∨ item.type = "gif")) : enhanceItem item = item := by
  rw [enhanceItem, if_neg h]

/-- Characterization helper: on a video/gif item the ranker rewrites the
fields from the head of the stably sorted variant list. -/
theorem enhanceItem_eq (item : MediaItem)
    (hty : item.type = "video" ∨ item.type = "gif") :
    ∃ v vs, sortByKeyDesc variantArea (rawVariants item) = v :: vs ∧
      enhanceItem item = rankedItem item v vs := by
  have hne : sortByKeyDesc variantArea (rawVariants item) ≠ [] := by
    rw [Ne, sortByKeyDesc_eq_nil_iff]
    exact rawVariants_ne_nil item
  rcases hs : sortByKeyDesc variantArea (rawVariants item) with - | ⟨v, vs⟩
  · exact absurd hs hne
  · refine ⟨v, vs, rfl, ?_⟩
    rw [enhanceItem, if_pos hty, hs]
    rfl

/-- The type field survives the ranker. -/
theorem enhanceItem_type (item : MediaItem) : (enhanceItem item).type = item.type := by
  rw [enhanceItem]
  split
  · split <;> rfl
  · rfl

/-- Membership helper: an element of the ranked media list is the image
of some input item under `enhanceItem`. -/
theorem mem_enhance (items : List MediaItem) (item : MediaItem)
    (h : item ∈ enhanceMediaWithResolutions items) :
    ∃ a ∈ items, item = enhanceItem a := by
  rw [enhanceMediaWithResolutions] at h
  rcases List.mem_map.mp h with ⟨a, ha, rfl⟩
  exact ⟨a, ha, rfl⟩

/-- Head-field helper for ranked video/gif items, shared by the merger
claims: the primary URL, download URL and best quality come from the
first sorted variant, and the deduplicated lists are derived from the
final variant list. -/
theorem enhance_mem_spec (items : List MediaItem) (item : MediaItem)
    (hmem : item ∈ enhanceMediaWithResolutions items)
    (hty : item.type = "video" ∨ item.type = "gif") :
    ∃ v vs, item.variants = v :: vs ∧ item.url = v.url ∧
      item.download_url = v.url ∧ item.best_quality = some v.quality ∧
      item.available_qualities =
        some (dedupFirst ((item.variants.map (fun w => w.quality)).filter
          (fun q => q != "" && q != "unknown"))) ∧
      item.available_resolutions =
        some (dedupFirst ((item.variants.map (fun w => w.resolution)).filter
          (fun r => r != "" && r != "unknown"))) := by
  rcases mem_enhance items item hmem with ⟨a, -, rfl⟩
  have hta : a.type = "video" ∨ a.type = "gif" := by
    rw [← enhanceItem_type a]
    exact hty
  rcases enhanceItem_eq a hta with ⟨v, vs, -, he⟩
  rw [he]
  exact ⟨v, vs, rfl, rfl, rfl, rfl, rfl, rfl⟩

/-- A ranked video/gif record is a fixed point of the ranker. -/
theorem enhanceItem_ranked_fixed (a : MediaItem) (v : Variant) (vs : List Variant)
    (hty : a.type = "video" ∨ a.type = "gif")
    (hsorted : (v :: vs).Pairwise (fun x y => variantArea y ≤ variantArea x)) :
    enhanceItem (rankedItem a v vs) = rankedItem a v vs := by
  rw [enhanceItem,
    if_pos (show (rankedItem a v vs).type = "video" ∨ (rankedItem a v vs).type = "gif" from hty)]
  have h2 : rawVariants (rankedItem a v vs) = v :: vs := by
    rw [rawVariants]
    simp [rankedItem]
  rw [h2, sortByKeyDesc_eq_of_sorted _ _ hsorted]
  rfl

/-- No run of ten or more consecutive digits: at every position, the
next ten characters are not all present and digits. -/
def noDigitRun10 (l : List Char) : Prop :=
  ∀ i ∈ List.range l.length,
    ¬ (((l.drop i).take 10).length = 10 ∧ ((l.drop i).take 10).all Char.isDigit = true)

instance (l : List Char) : Decidable (noDigitRun10 l) := by
  unfold noDigitRun10; infer_instance

/-- Spec-side hypothesis of claim C8 on strings. -/
def noLongDigitRun (s : String) : Prop := noDigitRun10 s.toList

instance (s : String) : Decidable (noLongDigitRun s) := by
  unfold noLongDigitRun; infer_instance

theorem drop_append_len (a b : List Char) (i : Nat) :
    (a ++ b).drop (a.length + i) = b.drop i := by
  induction a with
  | nil => simp
  | cons c a ih => simp [Nat.succ_add, ih]

theorem noDigitRun10_suffix {a b : List Char} (h : noDigitRun10 (a ++ b)) :
    noDigitRun10 b := by
  intro i hi
  have hi' : a.length + i ∈ List.range (a ++ b).length := by
    rw [List.mem_range] at hi ⊢
    rw [List.length_append]
    omega
  have := h (a.length + i) hi'
  rwa [drop_append_len] at this

theorem not_noDigitRun10_of_run {cur : List Char} (t : List Char)
    (hcur : cur.all Char.isDigit = true) (hlen : 10 ≤ cur.length) :
    ¬ noDigitRun10 (cur.reverse ++ t) := by
  intro h
  have h0 : (0 : Nat) ∈ List.range (cur.reverse ++ t).length := by
    rw [List.mem_range, List.length_append, List.length_reverse]
    omega
  refine h 0 h0 ⟨?_, ?_⟩
  · rw [List.drop_zero, List.take_append_of_le_length (by simpa using hlen),
      List.length_take, List.length_reverse]
    omega
  · rw [List.all_eq_true]
    intro c hc
    rw [List.drop_zero, List.take_append_of_le_length (by simpa using hlen)] at hc
    have hc' : c ∈ cur.reverse := List.mem_of_mem_take hc
    rw [List.mem_reverse] at hc'
    exact List.all_eq_true.mp hcur c hc'

theorem digitRunScan_eq_none (l : List Char) :
    ∀ cur, cur.all Char.isDigit = true → noDigitRun10 (cur.reverse ++ l) →
      digitRunScan cur l = none := by
  induction l with
  | nil =>
    intro cur hcur hno
    rw [digitRunScan]
    have : ¬ 10 ≤ cur.length := fun h10 => not_noDigitRun10_of_run [] hcur h10 hno
    simp [this]
  | cons c cs ih =>
    intro cur hcur hno
    rw [digitRunScan]
    by_cases hd : c.isDigit
    · rw [if_pos hd]
      refine ih (c :: cur) ?_ ?_
      · simp [hd, hcur]
      · have he : (c :: cur).reverse ++ cs = cur.reverse ++ c :: cs := by
          simp
        rw [he]
        exact hno
    · rw [if_neg hd]
      have hlen : ¬ 10 ≤ cur.length := fun h10 =>
        not_noDigitRun10_of_run (c :: cs) hcur h10 hno
      rw [if_neg hlen]
      refine ih [] rfl ?_
      have he : cur.reverse ++ c :: cs = (cur.reverse ++ [c]) ++ cs := by
        simp
      rw [he] at hno
      exact noDigitRun10_suffix hno

theorem extractStatusIdFromUrl_eq_none (s : String) (h : noLongDigitRun s) :
    extractStatusIdFromUrl s = none := by
  rw [extractStatusIdFromUrl, digitRunScan_eq_none s.toList [] rfl (by simpa using h)]
  rfl

/-- Shape helper: a successful response always carries a media list that
is the output of the Variant Ranker on some extractor media list. -/
theorem handle_success_media (tweetUrl : String)
    (sA sB sC : Option CandidateResult)
    (hs : (handleScrapeRequestDirect tweetUrl sA sB sC).success = true) :
    ∃ X, (handleScrapeRequestDirect tweetUrl sA sB sC).media =
      some (enhanceMediaWithResolutions X) := by
  rcases hid : extractStatusIdFromUrl tweetUrl with - | sid
  · rw [handleScrapeRequestDirect] at hs
    simp only [hid] at hs
    simp [invalidUrlResponse] at hs
  · rcases hmb : mergeBase sA sB sC with - | r
    · rw [handleScrapeRequestDirect] at hs
      simp only [hid, hmb] at hs
      simp [unavailableResponse] at hs
    · by_cases hr : r.media = []
      · rw [handleScrapeRequestDirect] at hs
        simp only [hid, hmb, if_pos hr] at hs
        simp [unavailableResponse] at hs
      · rcases sA with - | s
        · refine ⟨r.media, ?_⟩
          rw [handleScrapeRequestDirect]
          simp only [hid, hmb, if_neg hr]
          rfl
        · by_cases hsm : s.media = []
          · refine ⟨r.media, ?_⟩
            rw [handleScrapeRequestDirect]
            simp only [hid, hmb, if_neg hr, if_pos hsm]
            rfl
          · refine ⟨s.media, ?_⟩
            rw [handleScrapeRequestDirect]
            simp only [hid, hmb, if_neg hr, if_neg hsm]
            rfl

/-- C1: when Source A yields at least one media item, the whole success
response is built from Source A: its media re-ranked through the Variant
Ranker, method `api_a`, and the base shape (user, text, timestamp) taken
from A - the first source in the priority order A, B, C with media -
regardless of the Source B and HTML outcomes. -/
theorem merger_prefers_source_a (tweetUrl : String) (sA : CandidateResult)
    (sB sC : Option CandidateResult) (sid : String)
    (hsid : extractStatusIdFromUrl tweetUrl = some sid)
    (hmedia : sA.media ≠ []) :
    handleScrapeRequestDirect tweetUrl (some sA) sB sC =
      { status := 200, success := true,
        url := some tweetUrl,
        id := some sid,
        method := some "api_a",
        user := some sA.user,
        text := some sA.text,
        created_at := some (fixCreatedAt sA.created_at),
        media := some (enhanceMediaWithResolutions sA.media),
        media_count := some (enhanceMediaWithResolutions sA.media).length,
        download_info :=
          some (generateDownloadInfo sA.user (enhanceMediaWithResolutions sA.media) sid) } := by
  have hmb : mergeBase (some sA) sB sC = some sA := by
    rw [mergeBase]
    simp only [jsOrOpt, if_neg hmedia]
  rw [handleScrapeRequestDirect]
  simp only [hsid, hmb, if_neg hmedia]
  simp [okResponse]

/-- C8: a reference string with no run of ten or more consecutive digits
is rejected with HTTP 400, `success:false` and the invalid-reference
error, whatever the three upstream outcomes are - the response does not
depend on them, which is the pure-model rendering of "before any network
call". -/
theorem invalid_reference_rejected (tweetUrl : String)
    (sA sB sC : Option CandidateResult) (h : noLongDigitRun tweetUrl) :
    handleScrapeRequestDirect tweetUrl sA sB sC =
      { status := 400, success := false, error := some "Invalid URL" } := by
  rw [handleScrapeRequestDirect, extractStatusIdFromUrl_eq_none tweetUrl h]
  rfl

/-- C9: when every extractor outcome is absent or empty of media, the
handler answers HTTP 404, `success:false`, the unavailability error, and
echoes the extracted identifier. -/
theorem content_unavailable_404 (tweetUrl sid : String)
    (sA sB sC : Option CandidateResult)
    (hsid : extractStatusIdFromUrl tweetUrl = some sid)
    (hA : ∀ r, sA = some r → r.media = [])
    (hB : ∀ r, sB = some r → r.media = [])
    (hC : ∀ r, sC = some r → r.media = []) :
    handleScrapeRequestDirect tweetUrl sA sB sC =
      { status := 404, success := false, error := some "Content not available",
        id := some sid } := by
  have hmb : ∀ r, mergeBase sA sB sC = some r → r.media = [] := by
    intro r hr
    rw [mergeBase] at hr
    rcases sA with - | a
    · rcases sB with - | b
      · exact hC r (by simpa [jsOrOpt] using hr)
      · simp only [jsOrOpt, if_pos (hB b rfl)] at hr
        exact hC r hr
    · simp only [jsOrOpt, if_pos (hA a rfl)] at hr
      exact hC r hr
  rcases hm : mergeBase sA sB sC with - | r
  · rw [handleScrapeRequestDirect]
    simp only [hsid, hm]
    rfl
  · rw [handleScrapeRequestDirect]
    simp only [hsid, hm, if_pos (hmb r hm)]
    rfl

/-- C10: the Variant Ranker pass leaves every item whose kind is not
video and not gif - in particular every photo - completely unchanged:
no field is rewritten and no best-quality/available-qualities/
available-resolutions fields are added; only video and gif items are
modified. -/
theorem ranker_photo_frame (item : MediaItem)
    (h1 : item.type ≠ "video") (h2 : item.type ≠ "gif") :
    enhanceItem item = item := by
  refine enhanceItem_frame item ?_
  rintro (h | h)
  · exact h1 h
  · exact h2 h

/-- Per-item idempotence helper for claim C2. -/
theorem enhanceItem_idem (item : MediaItem) :
    enhanceItem (enhanceItem item) = enhanceItem item := by
  by_cases hty : item.type = "video" ∨ item.type = "gif"
  · rcases enhanceItem_eq item hty with ⟨v, vs, hsort, he⟩
    have hsorted : (v :: vs).Pairwise (fun x y => variantArea y ≤ variantArea x) := by
      rw [← hsort]
      exact sortByKeyDesc_pairwise _ _
    rw [he, enhanceItem_ranked_fixed item v vs hty hsorted]
  · rw [enhanceItem_frame item hty, enhanceItem_frame item hty]

/-- C2: the Variant Ranker is idempotent - applied a second time to an
already-ranked item (or media list) it reproduces the identical item:
same variant order, same primary/download URL, same best quality, same
available qualities and resolutions, since the result is equality of the
whole record. -/
theorem ranker_idempotent :
    (∀ item : MediaItem, enhanceItem (enhanceItem item) = enhanceItem item) ∧
    (∀ mediaItems : List MediaItem,
      enhanceMediaWithResolutions (enhanceMediaWithResolutions mediaItems) =
        enhanceMediaWithResolutions mediaItems) := by
  refine ⟨enhanceItem_idem, ?_⟩
  intro mediaItems
  unfold enhanceMediaWithResolutions
  rw [List.map_map]
  exact List.map_congr_left (fun a _ => enhanceItem_idem a)

/-- C3: the Ranker's sort step orders every variant list by
non-increasing pixel area of the parsed resolution, is a permutation of
the input, keeps tied elements in their original relative order (stable
sort, stated as filter-invariance for every area value), and ranks the
example resolutions 640x360, 1920x1080, 854x480 as 1920x1080, 854x480,
640x360. -/
theorem ranker_sorting (l : List Variant) :
    ((sortByKeyDesc variantArea l).Pairwise fun a b => variantArea b ≤ variantArea a) ∧
    (sortByKeyDesc variantArea l).Perm l ∧
    (∀ k, (sortByKeyDesc variantArea l).filter (fun v => variantArea v == k) =
      l.filter (fun v => variantArea v == k)) ∧
    (sortByKeyDesc variantArea
        [{ url := some "u1", quality := "360p", resolution := "640x360" },
         { url := some "u2", quality := "1080p", resolution := "1920x1080" },
         { url := some "u3", quality := "480p", resolution := "854x480" }]).map
      (fun v => v.resolution) = ["1920x1080", "854x480", "640x360"] := by
  refine ⟨sortByKeyDesc_pairwise _ l, sortByKeyDesc_perm _ l,
    fun k => sortByKeyDesc_filter_stable _ l k, ?_⟩
  decide

/-- C4: the Quality Classifier is a total deterministic function of the
parsed width/height: whenever both components parse it agrees with the
numeric policy (seven canonical exact tiers, then descending
width-or-height thresholds, else unknown), whenever a component is
missing or non-numeric it answers unknown, and on the four reference
inputs it gives 1080p, 4K, unknown, unknown. -/
theorem classifier_policy :
    (∀ s w h, classifierParse s = (some w, some h) →
      getQualityFromResolution s = qualityFromDims w h) ∧
    (∀ s, ((classifierParse s).1 = none ∨ (classifierParse s).2 = none) →
      getQualityFromResolution s = "unknown") ∧
    getQualityFromResolution "1920x1080" = "1080p" ∧
    getQualityFromResolution "9999x9999" = "4K" ∧
    getQualityFromResolution "unknown" = "unknown" ∧
    getQualityFromResolution "" = "unknown" := by
  refine ⟨?_, ?_, by decide, by decide, by decide, by decide⟩
  · intro s w h hp
    by_cases hs1 : s = ""
    · rw [hs1] at hp
      have h0 : classifierParse "" = (some 0, none) := by decide
      rw [h0] at hp
      simp at hp
    · by_cases hs2 : s = "unknown"
      · rw [hs2] at hp
        have h0 : classifierParse "unknown" = (none, none) := by decide
        rw [h0] at hp
        simp at hp
      · by_cases hs3 : s = "undefinedxundefined"
        · rw [hs3] at hp
          have h0 : classifierParse "undefinedxundefined" = (none, none) := by decide
          rw [h0] at hp
          simp at hp
        · rw [getQualityFromResolution, if_neg (by tauto), hp]
          rfl
  · intro s hnone
    by_cases hsent : s = "" ∨ s = "unknown" ∨ s = "undefinedxundefined"
    · rw [getQualityFromResolution, if_pos hsent]
    · rw [getQualityFromResolution, if_neg hsent]
      rcases hp : classifierParse s with ⟨o1, o2⟩
      rw [hp] at hnone
      rcases o1 with - | w
      · rcases o2 with - | h <;> rfl
      · rcases o2 with - | h
        · rfl
        · simp at hnone

/-- C5 counterexample: a Source A photo flows through the merger with
its primary URL left as the bare photo URL while its single variant URL
carries the `?format=jpg&name=orig` download suffix, so "primaryLocator
equals variants[0].locator for every media item of the winning result"
is false as stated. -/
theorem primary_locator_counterexample :
    ¬ ∀ item ∈ ((handleScrapeRequestDirect sampleUrl
        (syndicationConvert "2024-01-01T00:00:00.000Z" c5PhotoPayload) none none).media.getD []),
      item.url = item.variants.head?.bind (fun v => v.url) := by
  decide

/-- C5 amended: in every successful response, every video or gif media
item has its primary URL, download URL and best quality equal to those
of the first variant of its ranked variant list; the response media list
is the ranker's output itself, so the variants are not reordered
afterwards.  (Source A photo items instead carry the variant URL only in
their download URL, as the counterexample shows.) -/
theorem primary_locator_video_gif (tweetUrl : String) (sA sB sC : Option CandidateResult)
    (hs : (handleScrapeRequestDirect tweetUrl sA sB sC).success = true)
    (item : MediaItem)
    (hm : item ∈ (handleScrapeRequestDirect tweetUrl sA sB sC).media.getD [])
    (hty : item.type = "video" ∨ item.type = "gif") :
    ∃ v vs, item.variants = v :: vs ∧ item.url = v.url ∧ item.download_url = v.url ∧
      item.best_quality = some v.quality := by
  rcases handle_success_media tweetUrl sA sB sC hs with ⟨X, hX⟩
  rw [hX] at hm
  simp only [Option.getD_some] at hm
  rcases enhance_mem_spec X item hm hty with ⟨v, vs, h1, h2, h3, h4, -, -⟩
  exact ⟨v, vs, h1, h2, h3, h4⟩

/-- C6 counterexample: `"12xab"` is neither absent, empty nor the
sentinel and does not split into two numeric components, yet
`parseResolution` returns `(12, 0)`, not `(0, 0)`: the componentwise
`|| 0` default keeps the numeric first component. -/
theorem parse_resolution_counterexample :
    ("12xab" ≠ "" ∧ "12xab" ≠ "unknown" ∧ ¬ twoNumericComponents "12xab") ∧
    parseResolution "12xab" ≠ (0, 0) := by
  decide

/-- C6 amended: the Resolution Parser is total and never signals an
error; it returns `(0, 0)` exactly for the absent/empty string and the
two sentinels, and otherwise defaults each of width and height to `0`
independently when its own component is missing or non-numeric. -/
theorem parse_resolution_componentwise (s : String) :
    ((s = "" ∨ s = "unknown" ∨ s = "undefinedxundefined") → parseResolution s = (0, 0)) ∧
    parseResolution s = (componentOr0 s 0, componentOr0 s 1) := by
  constructor
  · intro h
    rw [parseResolution, if_pos h]
  · by_cases h : s = "" ∨ s = "unknown" ∨ s = "undefinedxundefined"
    · rcases h with h | h | h <;> rw [h] <;> decide
    · rw [parseResolution, if_neg h]
      simp only [componentOr0, List.getElem?_map]
      rcases h0 : (splitOnChar 'x' s.toList)[0]? with - | p0 <;>
        rcases h1 : (splitOnChar 'x' s.toList)[1]? with - | p1 <;>
          simp [h0, h1]

/-- C7: after ranking, a video/gif item's available qualities and
resolutions are the first-seen-order deduplication of the truthy
non-unknown values over its (sorted) variant list: they contain no
duplicates and never contain the literal `"unknown"`. -/
theorem available_sets_clean (items : List MediaItem) (item : MediaItem)
    (hmem : item ∈ enhanceMediaWithResolutions items)
    (hty : item.type = "video" ∨ item.type = "gif") :
    ∃ qs rs,
      item.available_qualities = some qs ∧ item.available_resolutions = some rs ∧
      qs.Nodup ∧ rs.Nodup ∧ "unknown" ∉ qs ∧ "unknown" ∉ rs ∧
      qs = dedupFirst ((item.variants.map (fun w => w.quality)).filter
        (fun q => q != "" && q != "unknown")) ∧
      rs = dedupFirst ((item.variants.map (fun w => w.resolution)).filter
        (fun r => r != "" && r != "unknown")) := by
  rcases enhance_mem_spec items item hmem hty with ⟨v, vs, hvar, -, -, -, hq, hr⟩
  refine ⟨_, _, hq, hr, dedupFirst_nodup _, dedupFirst_nodup _, ?_, ?_, rfl, rfl⟩
  · intro hmemq
    have h2 := mem_of_mem_dedupFirst hmemq
    rcases List.mem_filter.mp h2 with ⟨-, hpred⟩
    simp at hpred
  · intro hmemr
    have h2 := mem_of_mem_dedupFirst hmemr
    rcases List.mem_filter.mp h2 with ⟨-, hpred⟩
    simp at hpred

/-- Witness for C1 at the concrete sample inputs: Source A video beats
Source B photo. -/
theorem merger_prefers_source_a_witness :
    handleScrapeRequestDirect sampleUrl (some sampleVideoResult) (some sampleBResult) none =
      { status := 200, success := true,
        url := some sampleUrl,
        id := some "1234567890123",
        method := some "api_a",
        user := some sampleVideoResult.user,
        text := some sampleVideoResult.text,
        created_at := some (fixCreatedAt sampleVideoResult.created_at),
        media := some (enhanceMediaWithResolutions sampleVideoResult.media),
        media_count := some (enhanceMediaWithResolutions sampleVideoResult.media).length,
        download_info := some (generateDownloadInfo sampleVideoResult.user
          (enhanceMediaWithResolutions sampleVideoResult.media) "1234567890123") } :=
  merger_prefers_source_a sampleUrl sampleVideoResult (some sampleBResult) none
    "1234567890123" (by decide) (by decide)

/-- Witness for C4 at `"1280x720"`. -/
theorem classifier_policy_witness :
    classifierParse "1280x720" = (some 1280, some 720) ∧
    getQualityFromResolution "1280x720" = qualityFromDims 1280 720 :=
  ⟨by decide, classifier_policy.1 "1280x720" 1280 720 (by decide)⟩

/-- Witness for the amended C5 at the concrete sample video flow. -/
theorem primary_locator_video_gif_witness :
    sampleResponse.success = true ∧
    (∃ v vs, sampleItem.variants = v :: vs ∧ sampleItem.url = v.url ∧
      sampleItem.download_url = v.url ∧ sampleItem.best_quality = some v.quality) :=
  ⟨by decide, primary_locator_video_gif sampleUrl (some sampleVideoResult) none none
    (by decide) sampleItem (by decide) (by decide)⟩

/-- Witness for the amended C6 at `"unknown"` and `"12xab"`. -/
theorem parse_resolution_componentwise_witness :
    parseResolution "unknown" = (0, 0) ∧
    parseResolution "12xab" = (componentOr0 "12xab" 0, componentOr0 "12xab" 1) :=
  ⟨(parse_resolution_componentwise "unknown").1 (Or.inr (Or.inl rfl)),
   (parse_resolution_componentwise "12xab").2⟩

/-- Witness for C7 at the ranked sample video item. -/
theorem available_sets_clean_witness :
    sampleRankedItem ∈ enhanceMediaWithResolutions sampleVideoResult.media ∧
    (∃ qs rs,
      sampleRankedItem.available_qualities = some qs ∧
      sampleRankedItem.available_resolutions = some rs ∧
      qs.Nodup ∧ rs.Nodup ∧ "unknown" ∉ qs ∧ "unknown" ∉ rs ∧
      qs = dedupFirst ((sampleRankedItem.variants.map (fun w => w.quality)).filter
        (fun q => q != "" && q != "unknown")) ∧
      rs = dedupFirst ((sampleRankedItem.variants.map (fun w => w.resolution)).filter
        (fun r => r != "" && r != "unknown"))) :=
  ⟨by decide, available_sets_clean sampleVideoResult.media sampleRankedItem
    (by decide) (by decide)⟩

/-- Witness for C8 at a reference with no ten-digit run. -/
theorem invalid_reference_rejected_witness :
    noLongDigitRun "https://x.com/a/123" ∧
    handleScrapeRequestDirect "https://x.com/a/123" none none none =
      { status := 400, success := false, error := some "Invalid URL" } :=
  ⟨by decide, invalid_reference_rejected "https://x.com/a/123" none none none (by decide)⟩

/-- Witness for C9 with all three outcomes absent. -/
theorem content_unavailable_404_witness :
    handleScrapeRequestDirect sampleUrl none none none =
      { status := 404, success := false, error := some "Content not available",
        id := some "1234567890123" } :=
  content_unavailable_404 sampleUrl "1234567890123" none none none (by decide)
    (fun r h => nomatch h) (fun r h => nomatch h) (fun r h => nomatch h)

/-- Witness for C10 at the concrete Source A photo item. -/
theorem ranker_photo_frame_witness :
    samplePhotoItem.type ≠ "video" ∧ samplePhotoItem.type ≠ "gif" ∧
    enhanceItem samplePhotoItem = samplePhotoItem :=
  ⟨by decide, by decide, ranker_photo_frame samplePhotoItem (by decide) (by decide)⟩
